import Mathlib

/-!
Verification of the rebate calculation engine of `rebate_app.py`.

The source is a single-file application; all domain logic lives in a few
arithmetic blocks, which are embedded here over exact rationals (the
source manipulates plain Python numbers; rounding is presentation-only
per the spec):

* `current_rate` — the if/elif tier-selection chain of the flat tiered
  calculator (source lines 42-45);
* `total_rebate` — line 47;
* `dist` — the distance-to-next-tier chain, lines 55-65;
* `growth_vol`, `growth_payout`, `per_ton_value` — growth calculator,
  lines 102-113 (the `growth_vol > 0` guard is modelled by `Option`);
* `get_q_rate`, `q_value`, `total_q_rebate`, `total_year_vol`,
  `year_rate`, `annual_bonus`, `grand_total` — retention calculator,
  lines 182-202.

The tiered-vs-growth comparator has no code under `src/`; it is modelled
from the spec (§4.5) where needed.
-/

namespace Rebate

/-- A three-tier schedule: three (threshold, rate) pairs, exactly the six
sidebar inputs `t1_vol, t1_pct, ..., t3_vol, t3_pct` of the source. -/
structure Schedule where
  t1 : ℚ
  r1 : ℚ
  t2 : ℚ
  r2 : ℚ
  t3 : ℚ
  r3 : ℚ

/-- Threshold of tier `i` (tiers indexed 0,1,2 for source tiers 1,2,3). -/
def Schedule.thr (s : Schedule) : Fin 3 → ℚ
  | 0 => s.t1
  | 1 => s.t2
  | 2 => s.t3

/-- Rate of tier `i`. -/
def Schedule.rate (s : Schedule) : Fin 3 → ℚ
  | 0 => s.r1
  | 1 => s.r2
  | 2 => s.r3

/-- Source lines 42-45: the flat tiered calculator's rate resolution.
`current_rate = 0.0; if sim_vol >= t3_vol and t3_vol > 0: ... elif ... elif ...` -/
def current_rate (s : Schedule) (v : ℚ) : ℚ :=
  if v ≥ s.t3 ∧ s.t3 > 0 then s.r3
  else if v ≥ s.t2 ∧ s.t2 > 0 then s.r2
  else if v ≥ s.t1 ∧ s.t1 > 0 then s.r1
  else 0

/-- Source line 47: `total_rebate = sim_vol * avg_price * current_rate`. -/
def total_rebate (s : Schedule) (v price : ℚ) : ℚ :=
  v * price * current_rate s v

/-- The tier the chain of lines 42-45 stops at, `none` when it falls through
to the default 0 rate.  Same guards, same order, as `current_rate`. -/
def selectedTier (s : Schedule) (v : ℚ) : Option (Fin 3) :=
  if v ≥ s.t3 ∧ s.t3 > 0 then some 2
  else if v ≥ s.t2 ∧ s.t2 > 0 then some 1
  else if v ≥ s.t1 ∧ s.t1 > 0 then some 0
  else none

/-- The spec's eligibility notion (§4.1): threshold strictly positive and
not above the volume. -/
def eligible (s : Schedule) (v : ℚ) (i : Fin 3) : Prop :=
  0 < s.thr i ∧ s.thr i ≤ v

instance (s : Schedule) (v : ℚ) (i : Fin 3) : Decidable (eligible s v i) :=
  inferInstanceAs (Decidable (0 < s.thr i ∧ s.thr i ≤ v))

/-- Source lines 55-65: the distance-to-next-tier chain.
`if sim_vol < t1_vol: dist = t1_vol - sim_vol ... elif ... elif ... else` —
the `else` branch ("Maximum Tier Achieved") is `none`. -/
def dist (s : Schedule) (v : ℚ) : Option (Fin 3 × ℚ) :=
  if v < s.t1 then some (0, s.t1 - v)
  else if v < s.t2 then some (1, s.t2 - v)
  else if v < s.t3 then some (2, s.t3 - v)
  else none

/-- Source line 102: `growth_vol = max(0, sim_vol_growth - benchmark_vol)`. -/
def growth_vol (benchmark v : ℚ) : ℚ :=
  max 0 (v - benchmark)

/-- Source line 103: `growth_payout = growth_vol * avg_price * growth_rebate_pct`. -/
def growth_payout (benchmark price pct v : ℚ) : ℚ :=
  growth_vol benchmark v * price * pct

/-- Source lines 109-113: `per_ton_value = growth_payout / growth_vol` is
computed only under the guard `growth_vol > 0`; the `else` branch shows a
"Below Benchmark" status instead, modelled as `none`. -/
def per_ton_value (benchmark price pct v : ℚ) : Option ℚ :=
  if growth_vol benchmark v > 0 then
    some (growth_payout benchmark price pct v / growth_vol benchmark v)
  else none

/-- Source lines 182-186: the quarterly rate chain `get_q_rate(v)`,
structurally identical to lines 42-45 but over the quarterly schedule. -/
def get_q_rate (qs : Schedule) (v : ℚ) : ℚ :=
  if v ≥ qs.t3 ∧ qs.t3 > 0 then qs.r3
  else if v ≥ qs.t2 ∧ qs.t2 > 0 then qs.r2
  else if v ≥ qs.t1 ∧ qs.t1 > 0 then qs.r1
  else 0

/-- Source line 190: one entry of `q_values = [v * avg_price * r ...]`. -/
def q_value (qs : Schedule) (price v : ℚ) : ℚ :=
  v * price * get_q_rate qs v

/-- Source line 192: `total_q_rebate = sum(q_values)`. -/
def total_q_rebate (qs : Schedule) (price q1 q2 q3 q4 : ℚ) : ℚ :=
  q_value qs price q1 + q_value qs price q2 + q_value qs price q3 + q_value qs price q4

/-- Source line 193: `total_year_vol = sum(q_volumes)`. -/
def total_year_vol (q1 q2 q3 q4 : ℚ) : ℚ :=
  q1 + q2 + q3 + q4

/-- Source lines 196-199: the annual rate chain over the annual schedule. -/
def year_rate (ann : Schedule) (tv : ℚ) : ℚ :=
  if tv ≥ ann.t3 ∧ ann.t3 > 0 then ann.r3
  else if tv ≥ ann.t2 ∧ ann.t2 > 0 then ann.r2
  else if tv ≥ ann.t1 ∧ ann.t1 > 0 then ann.r1
  else 0

/-- Source line 201: `annual_bonus = total_year_vol * avg_price * year_rate`. -/
def annual_bonus (ann : Schedule) (price q1 q2 q3 q4 : ℚ) : ℚ :=
  total_year_vol q1 q2 q3 q4 * price * year_rate ann (total_year_vol q1 q2 q3 q4)

/-- Source line 202: `grand_total = total_q_rebate + annual_bonus`. -/
def grand_total (qs ann : Schedule) (price q1 q2 q3 q4 : ℚ) : ℚ :=
  total_q_rebate qs price q1 q2 q3 q4 + annual_bonus ann price q1 q2 q3 q4

/-- The quarterly schedule of the spec's end-to-end retention scenario
(also the source's sidebar defaults, lines 143-145). -/
def qSched : Schedule := ⟨50, 1/200, 75, 3/400, 100, 1/100⟩

/-- The annual schedule of the spec's end-to-end retention scenario
(also the source's sidebar defaults, lines 138-140). -/
def aSched : Schedule := ⟨200, 1/200, 300, 3/400, 400, 1/100⟩

/-- Modelled from the spec: `resolveRate` on the comparator's two-tier
schedule (§4.5; the comparator variant has no code under `src/`).  Highest
threshold first; a tier is taken when its threshold is positive and the
volume reaches it. -/
def resolveRate2 (th1 ra1 th2 ra2 v : ℚ) : ℚ :=
  if th2 > 0 ∧ v ≥ th2 then ra2
  else if th1 > 0 ∧ v ≥ th1 then ra1
  else 0

/-- Modelled from the spec: the comparator's tiered payout,
`resolveRate(tieredSchedule, volume).rate * volume` (§4.5, no unit price). -/
def tieredPayout2 (th1 ra1 th2 ra2 v : ℚ) : ℚ :=
  resolveRate2 th1 ra1 th2 ra2 v * v

/-- Modelled from the spec: the comparator's growth payout,
`volume > benchmark ? (volume - benchmark) * growthRate : 0` (§4.5). -/
def growthPayoutCmp (benchmark growthRate v : ℚ) : ℚ :=
  if v > benchmark then (v - benchmark) * growthRate else 0

/-- Modelled from the spec: `difference = growthPayout - tieredPayout` (§4.5). -/
def differenceCmp (th1 ra1 th2 ra2 benchmark growthRate v : ℚ) : ℚ :=
  growthPayoutCmp benchmark growthRate v - tieredPayout2 th1 ra1 th2 ra2 v

/-- The comparator's difference curve at the concrete parameters of the
crossover scenario: schedule `[(100, 0.02), (120, 0.03)]`, benchmark 100,
growth rate 0.15. -/
def diffC (v : ℚ) : ℚ :=
  differenceCmp 100 (1/50) 120 (3/100) 100 (3/20) v

/-! ## Helper lemmas -/

/-- Whatever tier the chain of lines 42-45 stops at has a positive threshold
that the volume has reached. -/
lemma selectedTier_sound (s : Schedule) (v : ℚ) (i : Fin 3)
    (h : selectedTier s v = some i) : 0 < s.thr i ∧ s.thr i ≤ v := by
  unfold selectedTier at h
  split_ifs at h with h1 h2 h3
  · rcases Option.some.inj h with rfl
    exact ⟨h1.2, h1.1⟩
  · rcases Option.some.inj h with rfl
    exact ⟨h2.2, h2.1⟩
  · rcases Option.some.inj h with rfl
    exact ⟨h3.2, h3.1⟩

/-- The rate chain of lines 42-45 never yields anything but one of the three
configured rates or the default 0. -/
lemma current_rate_cases (s : Schedule) (v : ℚ) :
    current_rate s v = s.r3 ∨ current_rate s v = s.r2 ∨
      current_rate s v = s.r1 ∨ current_rate s v = 0 := by
  unfold current_rate
  split_ifs <;> tauto

/-- With nonnegative configured rates the resolved rate is nonnegative. -/
lemma current_rate_nonneg (s : Schedule) (hr1 : 0 ≤ s.r1) (hr2 : 0 ≤ s.r2)
    (hr3 : 0 ≤ s.r3) (v : ℚ) : 0 ≤ current_rate s v := by
  unfold current_rate
  split_ifs <;> first | assumption | exact le_refl 0

/-- For a schedule with ascending nonnegative rates, the resolved rate is
monotone in the volume (threshold order is irrelevant: once a branch of the
chain fires at `v1` the same or a higher branch fires at any `v2 ≥ v1`). -/
lemma current_rate_mono (s : Schedule)
    (hr1 : 0 ≤ s.r1) (hr12 : s.r1 ≤ s.r2) (hr23 : s.r2 ≤ s.r3)
    {v1 v2 : ℚ} (h : v1 ≤ v2) :
    current_rate s v1 ≤ current_rate s v2 := by
  unfold current_rate
  by_cases a3 : v1 ≥ s.t3 ∧ s.t3 > 0
  · rw [if_pos a3, if_pos ⟨le_trans a3.1 h, a3.2⟩]
  · rw [if_neg a3]
    by_cases a2 : v1 ≥ s.t2 ∧ s.t2 > 0
    · rw [if_pos a2]
      by_cases b3 : v2 ≥ s.t3 ∧ s.t3 > 0
      · rw [if_pos b3]; exact hr23
      · rw [if_neg b3, if_pos ⟨le_trans a2.1 h, a2.2⟩]
    · rw [if_neg a2]
      by_cases a1 : v1 ≥ s.t1 ∧ s.t1 > 0
      · rw [if_pos a1]
        by_cases b3 : v2 ≥ s.t3 ∧ s.t3 > 0
        · rw [if_pos b3]; exact le_trans hr12 hr23
        · rw [if_neg b3]
          by_cases b2 : v2 ≥ s.t2 ∧ s.t2 > 0
          · rw [if_pos b2]; exact hr12
          · rw [if_neg b2, if_pos ⟨le_trans a1.1 h, a1.2⟩]
      · rw [if_neg a1]
        split_ifs <;> linarith

/-- Beyond volume 125 the crossover scenario's difference is positive. -/
lemma diffC_pos (w : ℚ) (hw : 125 < w) : 0 < diffC w := by
  unfold diffC differenceCmp growthPayoutCmp tieredPayout2 resolveRate2
  rw [if_pos (by linarith : (100:ℚ) < w),
    if_pos (⟨by norm_num, by linarith⟩ : (120:ℚ) > 0 ∧ w ≥ 120)]
  linarith

/-- At volume 125 the crossover scenario's difference vanishes. -/
lemma diffC_at_125 : diffC 125 = 0 := by
  unfold diffC differenceCmp growthPayoutCmp tieredPayout2 resolveRate2
  norm_num

/-! ## The claims -/

/-- C1 (counterexample).  On a schedule whose thresholds are not ascending
(tier 1 has threshold 100, tier 2 has 10, tier 3 has 5), at volume 100 the
tier of maximal threshold among the eligible ones is tier 1 (threshold 100,
rate 1/2), yet the chain of lines 42-45 returns tier 3's rate 1/10: the
resolved rate is not the highest-threshold eligible tier's rate. -/
theorem c1_cex_misordered :
    eligible ⟨100, 1/2, 10, 1/5, 5, 1/10⟩ 100 0 ∧
    (∀ j, eligible ⟨100, 1/2, 10, 1/5, 5, 1/10⟩ 100 j →
      Schedule.thr ⟨100, 1/2, 10, 1/5, 5, 1/10⟩ j ≤
        Schedule.thr ⟨100, 1/2, 10, 1/5, 5, 1/10⟩ 0) ∧
    current_rate ⟨100, 1/2, 10, 1/5, 5, 1/10⟩ 100 = 1/10 ∧
    current_rate ⟨100, 1/2, 10, 1/5, 5, 1/10⟩ 100 ≠
      Schedule.rate ⟨100, 1/2, 10, 1/5, 5, 1/10⟩ 0 := by
  refine ⟨by decide, by decide, ?_, ?_⟩
  · norm_num [current_rate]
  · norm_num [current_rate, Schedule.rate]

/-- C1 (amended: thresholds ascending).  For a schedule whose thresholds are
ascending in tier order, the chain of lines 42-45 returns 0 when no tier is
eligible (threshold positive and not above the volume), and otherwise the
rate of an eligible tier whose threshold is maximal among eligible tiers. -/
theorem c1_rate_resolution (s : Schedule) (v : ℚ)
    (h12 : s.t1 ≤ s.t2) (h23 : s.t2 ≤ s.t3) :
    ((∀ i, ¬ eligible s v i) → current_rate s v = 0) ∧
    (∀ i₀, eligible s v i₀ →
      ∃ i, eligible s v i ∧ (∀ j, eligible s v j → s.thr j ≤ s.thr i) ∧
        current_rate s v = s.rate i) := by
  unfold current_rate
  by_cases h3 : v ≥ s.t3 ∧ s.t3 > 0
  · rw [if_pos h3]
    have he : eligible s v 2 := ⟨h3.2, h3.1⟩
    refine ⟨fun hne => absurd he (hne 2), fun i₀ _ => ⟨2, he, fun j _ => ?_, rfl⟩⟩
    fin_cases j <;> simp only [Schedule.thr] <;> linarith
  · rw [if_neg h3]
    by_cases h2 : v ≥ s.t2 ∧ s.t2 > 0
    · rw [if_pos h2]
      have he : eligible s v 1 := ⟨h2.2, h2.1⟩
      refine ⟨fun hne => absurd he (hne 1), fun i₀ _ => ⟨1, he, fun j hj => ?_, rfl⟩⟩
      fin_cases j
      · simp only [Schedule.thr]; linarith
      · simp only [Schedule.thr]; linarith
      · exact absurd ⟨hj.2, hj.1⟩ h3
    · rw [if_neg h2]
      by_cases h1 : v ≥ s.t1 ∧ s.t1 > 0
      · rw [if_pos h1]
        have he : eligible s v 0 := ⟨h1.2, h1.1⟩
        refine ⟨fun hne => absurd he (hne 0), fun i₀ _ => ⟨0, he, fun j hj => ?_, rfl⟩⟩
        fin_cases j
        · simp only [Schedule.thr]; linarith
        · exact absurd ⟨hj.2, hj.1⟩ h2
        · exact absurd ⟨hj.2, hj.1⟩ h3
      · rw [if_neg h1]
        refine ⟨fun _ => rfl, fun i₀ he₀ => ?_⟩
        exfalso
        fin_cases i₀
        · exact h1 ⟨he₀.2, he₀.1⟩
        · exact h2 ⟨he₀.2, he₀.1⟩
        · exact h3 ⟨he₀.2, he₀.1⟩

/-- C1 (witness).  On the ascending schedule (10, 1%), (20, 2%), (30, 5%)
at volume 5 no tier is eligible and the resolved rate is 0. -/
theorem c1_rate_resolution_witness :
    current_rate ⟨10, 1/100, 20, 1/50, 30, 1/20⟩ 5 = 0 :=
  (c1_rate_resolution ⟨10, 1/100, 20, 1/50, 30, 1/20⟩ 5
    (by decide) (by decide)).1 (by decide)

/-- C2.  A tier whose threshold is exactly 0 is never the tier the chain of
lines 42-45 stops at (its guard demands a positive threshold), and a
configuration with all three thresholds 0 resolves rate 0 — in both the
flat-tiered chain and the quarterly chain of lines 182-186 — hence payout 0,
with no failure (the functions are total). -/
theorem c2_zero_threshold_disabled (s : Schedule) (v : ℚ) :
    (current_rate s v = match selectedTier s v with
      | some i => s.rate i
      | none => 0) ∧
    (∀ i : Fin 3, s.thr i = 0 → selectedTier s v ≠ some i) ∧
    (s.t1 = 0 → s.t2 = 0 → s.t3 = 0 →
      current_rate s v = 0 ∧ get_q_rate s v = 0 ∧
        ∀ price : ℚ, total_rebate s v price = 0) := by
  refine ⟨?_, ?_, ?_⟩
  · unfold current_rate selectedTier
    split_ifs <;> rfl
  · intro i hz heq
    have := (selectedTier_sound s v i heq).1
    rw [hz] at this
    exact lt_irrefl 0 this
  · intro e1 e2 e3
    have hc : current_rate s v = 0 := by
      unfold current_rate
      rw [e1, e2, e3]
      norm_num
    refine ⟨hc, ?_, fun price => ?_⟩
    · unfold get_q_rate
      rw [e1, e2, e3]
      norm_num
    · unfold total_rebate
      rw [hc, mul_zero]

/-- C3 (counterexample).  On the spec's end-to-end retention scenario
(quarterly tiers (50, 0.5%), (75, 0.75%), (100, 1%); annual tiers
(200, 0.5%), (300, 0.75%), (400, 1%); period volumes 60, 80, 40, 0; unit
price 50000) the code does not produce the claimed Q1 payout 22500, Q2
payout 40000 and grand total 62500. -/
theorem c3_cex_retention_scenario :
    ¬ (q_value qSched 50000 60 = 22500 ∧ q_value qSched 50000 80 = 40000 ∧
       grand_total qSched aSched 50000 60 80 40 0 = 62500) := by
  norm_num [qSched, q_value, get_q_rate]

/-- C3 (amended: the rates the chain actually selects).  On that scenario
the code yields Q1 rate 0.5% and payout 15000, Q2 rate 0.75% and payout
30000, Q3 and Q4 payout 0, total quarterly payout 45000, annual volume 180
with annual bonus 0 (bonus not unlocked), and grand total 45000. -/
theorem c3_retention_scenario :
    get_q_rate qSched 60 = 1/200 ∧ q_value qSched 50000 60 = 15000 ∧
    get_q_rate qSched 80 = 3/400 ∧ q_value qSched 50000 80 = 30000 ∧
    q_value qSched 50000 40 = 0 ∧ q_value qSched 50000 0 = 0 ∧
    total_q_rebate qSched 50000 60 80 40 0 = 45000 ∧
    total_year_vol 60 80 40 0 = 180 ∧
    year_rate aSched 180 = 0 ∧
    annual_bonus aSched 50000 60 80 40 0 = 0 ∧
    grand_total qSched aSched 50000 60 80 40 0 = 45000 := by
  norm_num [qSched, aSched, q_value, get_q_rate, grand_total, total_q_rebate,
    total_year_vol, year_rate, annual_bonus]

/-- C4 (counterexample).  On the schedule (10, 90%), (20, 10%), (30, 10%) —
thresholds strictly ascending, so a well-formed schedule — with unit price 1,
the total payout drops from 171/10 at volume 19 to 2 at volume 20: the
flat-tiered total payout is not non-decreasing in volume for every schedule. -/
theorem c4_cex_downward_jump :
    Schedule.t1 ⟨10, 9/10, 20, 1/10, 30, 1/10⟩ < Schedule.t2 ⟨10, 9/10, 20, 1/10, 30, 1/10⟩ ∧
    Schedule.t2 ⟨10, 9/10, 20, 1/10, 30, 1/10⟩ < Schedule.t3 ⟨10, 9/10, 20, 1/10, 30, 1/10⟩ ∧
    total_rebate ⟨10, 9/10, 20, 1/10, 30, 1/10⟩ 19 1 = 171/10 ∧
    total_rebate ⟨10, 9/10, 20, 1/10, 30, 1/10⟩ 20 1 = 2 ∧
    ¬ total_rebate ⟨10, 9/10, 20, 1/10, 30, 1/10⟩ 19 1 ≤
        total_rebate ⟨10, 9/10, 20, 1/10, 30, 1/10⟩ 20 1 := by
  refine ⟨by norm_num, by norm_num, ?_, ?_, ?_⟩ <;>
    norm_num [total_rebate, current_rate]

/-- C4 (amended: rates nonnegative and ascending in tier order).  For a
schedule whose rates satisfy 0 ≤ r1 ≤ r2 ≤ r3 and a nonnegative unit price,
the total payout of line 47 is non-decreasing in the (nonnegative) volume:
no downward jump anywhere, including at tier boundaries. -/
theorem c4_total_rebate_monotone (s : Schedule) (price : ℚ)
    (hr1 : 0 ≤ s.r1) (hr12 : s.r1 ≤ s.r2) (hr23 : s.r2 ≤ s.r3)
    (hp : 0 ≤ price) (v1 v2 : ℚ) (hv : 0 ≤ v1) (h : v1 ≤ v2) :
    total_rebate s v1 price ≤ total_rebate s v2 price := by
  have hm := current_rate_mono s hr1 hr12 hr23 h
  have hnn : 0 ≤ current_rate s v1 :=
    current_rate_nonneg s hr1 (le_trans hr1 hr12) (le_trans hr1 (le_trans hr12 hr23)) v1
  unfold total_rebate
  have step1 : v1 * price * current_rate s v1 ≤ v2 * price * current_rate s v1 :=
    mul_le_mul_of_nonneg_right (mul_le_mul_of_nonneg_right h hp) hnn
  have step2 : v2 * price * current_rate s v1 ≤ v2 * price * current_rate s v2 :=
    mul_le_mul_of_nonneg_left hm (mul_nonneg (le_trans hv h) hp)
  exact le_trans step1 step2

/-- C4 (witness).  On the default schedule of the source's sidebar,
(48, 0.75%), (72, 1%), (96, 1.5%), with unit price 50000, the payout at
volume 50 is at most the payout at volume 90. -/
theorem c4_total_rebate_monotone_witness :
    total_rebate ⟨48, 3/400, 72, 1/100, 96, 3/200⟩ 50 50000 ≤
      total_rebate ⟨48, 3/400, 72, 1/100, 96, 3/200⟩ 90 50000 :=
  c4_total_rebate_monotone ⟨48, 3/400, 72, 1/100, 96, 3/200⟩ 50000
    (by norm_num) (by norm_num) (by norm_num) (by norm_num) 50 90
    (by norm_num) (by norm_num)

/-- C5.  The growth calculator of lines 102-113 computes
payout = max(0, volume - benchmark) * unitPrice * growthRate; its per-unit
value is the explicit `none` signal (the "Below Benchmark" branch) exactly
when the growth volume is 0, and payout / growthVolume under the positive
guard — the division is never reached with a zero divisor. -/
theorem c5_growth_guarded (b p r v : ℚ) :
    growth_payout b p r v = max 0 (v - b) * p * r ∧
    (per_ton_value b p r v = none ↔ growth_vol b v = 0) ∧
    (0 < growth_vol b v →
      per_ton_value b p r v = some (growth_payout b p r v / growth_vol b v)) := by
  have hnn : 0 ≤ growth_vol b v := le_max_left 0 (v - b)
  refine ⟨rfl, ?_, ?_⟩
  · unfold per_ton_value
    split_ifs with h
    · simp only [reduceCtorEq, false_iff]
      exact fun hz => absurd hz (ne_of_gt h)
    · simp only [true_iff]
      exact le_antisymm (not_lt.mp h) hnn
  · intro h
    unfold per_ton_value
    rw [if_pos h]

/-- C6 (counterexample).  With benchmark 0, growth rate 1 > 0 and unit
price 0, the payout at volume 1 and at volume 2 (both above the benchmark)
is 0 in each case: the growth payout is not strictly increasing above the
benchmark for every unit price. -/
theorem c6_cex_zero_price :
    (0:ℚ) < 1 ∧ (1:ℚ) < 2 ∧ growth_payout 0 0 1 1 = 0 ∧
    growth_payout 0 0 1 2 = 0 ∧
    ¬ growth_payout 0 0 1 1 < growth_payout 0 0 1 2 := by
  norm_num [growth_payout, growth_vol]

/-- C6 (amended: positive unit price).  For every benchmark and unit price,
the growth payout is 0 for every volume at most the benchmark; and whenever
the unit price and the growth rate are positive it is strictly increasing in
volume above the benchmark. -/
theorem c6_growth_monotone (b p r : ℚ) :
    (∀ v, v ≤ b → growth_payout b p r v = 0) ∧
    (0 < p → 0 < r → ∀ v1 v2, b < v1 → v1 < v2 →
      growth_payout b p r v1 < growth_payout b p r v2) := by
  constructor
  · intro v hv
    unfold growth_payout growth_vol
    rw [max_eq_left (by linarith : v - b ≤ 0)]
    ring
  · intro hp hr v1 v2 hb h
    unfold growth_payout growth_vol
    rw [max_eq_right (by linarith : (0:ℚ) ≤ v1 - b),
      max_eq_right (by linarith : (0:ℚ) ≤ v2 - b)]
    have hlt : v1 - b < v2 - b := by linarith
    exact mul_lt_mul_of_pos_right (mul_lt_mul_of_pos_right hlt hp) hr

/-- C7 (counterexample).  On the schedule with thresholds 100, 10, 200 (tier
1's threshold above tier 2's) at volume 5, the chain of lines 55-65 reports
tier 1 with 95 units needed, although the enabled tier with threshold 10
also exceeds the volume and is strictly lower: the reported tier is not the
first one in ascending threshold order. -/
theorem c7_cex_misordered_dist :
    dist ⟨100, 1/2, 10, 1/5, 200, 1/10⟩ 5 = some (0, 95) ∧
    0 < Schedule.thr ⟨100, 1/2, 10, 1/5, 200, 1/10⟩ 1 ∧
    (5:ℚ) < Schedule.thr ⟨100, 1/2, 10, 1/5, 200, 1/10⟩ 1 ∧
    Schedule.thr ⟨100, 1/2, 10, 1/5, 200, 1/10⟩ 1 <
      Schedule.thr ⟨100, 1/2, 10, 1/5, 200, 1/10⟩ 0 := by
  refine ⟨by norm_num [dist], by decide, by decide, by decide⟩

/-- C7 (amended: thresholds ascending).  For a schedule with ascending
thresholds and a nonnegative volume, the chain of lines 55-65 returns a tier
exactly when some enabled tier's threshold strictly exceeds the volume; the
returned tier is enabled, its threshold exceeds the volume and is minimal
among enabled thresholds exceeding the volume (zero-threshold tiers are
skipped, since a nonnegative volume is never below a zero threshold), and
the units needed are threshold - volume; otherwise it signals
max-tier-reached (`none`). -/
theorem c7_dist_next_tier (s : Schedule) (v : ℚ) (hv : 0 ≤ v)
    (h12 : s.t1 ≤ s.t2) (h23 : s.t2 ≤ s.t3) :
    (∀ i d, dist s v = some (i, d) →
      0 < s.thr i ∧ v < s.thr i ∧ d = s.thr i - v ∧
        ∀ j, 0 < s.thr j → v < s.thr j → s.thr i ≤ s.thr j) ∧
    (dist s v = none → ∀ i, ¬ v < s.thr i) ∧
    ((∀ i, 0 < s.thr i → s.thr i ≤ v) → dist s v = none) := by
  unfold dist
  split_ifs with h1 h2 h3
  · refine ⟨?_, ?_, ?_⟩
    · intro i d hs
      obtain ⟨rfl, rfl⟩ := Prod.ext_iff.mp (Option.some.inj hs)
      refine ⟨lt_of_le_of_lt hv h1, h1, rfl, fun j hj hj2 => ?_⟩
      fin_cases j <;> simp only [Schedule.thr] <;> linarith
    · intro hs
      exact absurd hs (by simp)
    · intro hall
      exact absurd (hall 0 (lt_of_le_of_lt hv h1)) (not_le.mpr h1)
  · refine ⟨?_, ?_, ?_⟩
    · intro i d hs
      obtain ⟨rfl, rfl⟩ := Prod.ext_iff.mp (Option.some.inj hs)
      refine ⟨lt_of_le_of_lt hv h2, h2, rfl, fun j hj hj2 => ?_⟩
      fin_cases j
      · exact absurd hj2 h1
      · simp only [Schedule.thr]; linarith
      · simp only [Schedule.thr]; linarith
    · intro hs
      exact absurd hs (by simp)
    · intro hall
      exact absurd (hall 1 (lt_of_le_of_lt hv h2)) (not_le.mpr h2)
  · refine ⟨?_, ?_, ?_⟩
    · intro i d hs
      obtain ⟨rfl, rfl⟩ := Prod.ext_iff.mp (Option.some.inj hs)
      refine ⟨lt_of_le_of_lt hv h3, h3, rfl, fun j hj hj2 => ?_⟩
      fin_cases j
      · exact absurd hj2 h1
      · exact absurd hj2 h2
      · simp only [Schedule.thr]; linarith
    · intro hs
      exact absurd hs (by simp)
    · intro hall
      exact absurd (hall 2 (lt_of_le_of_lt hv h3)) (not_le.mpr h3)
  · refine ⟨?_, ?_, ?_⟩
    · intro i d hs
      exact absurd hs (by simp)
    · intro _ i
      fin_cases i
      · exact h1
      · exact h2
      · exact h3
    · intro _
      rfl

/-- C7 (witness).  On the ascending schedule (10, 1%), (20, 2%), (30, 5%)
at volume 15 the chain reports tier 2: an enabled tier whose threshold 20
exceeds the volume, 5 units short. -/
theorem c7_dist_next_tier_witness :
    0 < Schedule.thr ⟨10, 1/100, 20, 1/50, 30, 1/20⟩ 1 ∧
    (15:ℚ) < Schedule.thr ⟨10, 1/100, 20, 1/50, 30, 1/20⟩ 1 ∧
    (5:ℚ) = Schedule.thr ⟨10, 1/100, 20, 1/50, 30, 1/20⟩ 1 - 15 :=
  have h := (c7_dist_next_tier ⟨10, 1/100, 20, 1/50, 30, 1/20⟩ 15
    (by norm_num) (by decide) (by decide)).1 1 5 (by norm_num [Rebate.dist])
  ⟨h.1, h.2.1, h.2.2.1⟩

/-- C8 (counterexample).  On the schedule with thresholds 90, 8, 4 (not
ascending: tier 1's threshold is above tier 3's) at volume 95 with unit
price 1, the engine does not reject the configuration: it computes the
numeric payout 19/4 from tier 3's rate 1/20, although tier 1 — the eligible
tier of maximal threshold — carries rate 2/5, so the "highest eligible tier
wins" invariant is silently violated instead of an error being returned. -/
theorem c8_cex_no_validation :
    ¬ Schedule.t1 ⟨90, 2/5, 8, 1/5, 4, 1/20⟩ ≤ Schedule.t2 ⟨90, 2/5, 8, 1/5, 4, 1/20⟩ ∧
    current_rate ⟨90, 2/5, 8, 1/5, 4, 1/20⟩ 95 = 1/20 ∧
    total_rebate ⟨90, 2/5, 8, 1/5, 4, 1/20⟩ 95 1 = 19/4 ∧
    eligible ⟨90, 2/5, 8, 1/5, 4, 1/20⟩ 95 0 ∧
    (∀ j, eligible ⟨90, 2/5, 8, 1/5, 4, 1/20⟩ 95 j →
      Schedule.thr ⟨90, 2/5, 8, 1/5, 4, 1/20⟩ j ≤ Schedule.thr ⟨90, 2/5, 8, 1/5, 4, 1/20⟩ 0) ∧
    current_rate ⟨90, 2/5, 8, 1/5, 4, 1/20⟩ 95 ≠ Schedule.rate ⟨90, 2/5, 8, 1/5, 4, 1/20⟩ 0 := by
  refine ⟨by decide, ?_, ?_, by decide, by decide, ?_⟩
  · norm_num [current_rate]
  · norm_num [total_rebate, current_rate]
  · norm_num [current_rate, Schedule.rate]

/-- C8 (amended: no validation exists).  The engine never returns a
configuration error: rate resolution is a total function whose value on any
schedule whatever — ascending or not — is one of the three configured rates
or 0, and the payout of line 47 is always the plain product of volume, price
and that rate.  Misordered schedules are computed, not rejected. -/
theorem c8_no_error_channel (s : Schedule) (v price : ℚ) :
    (current_rate s v = s.r3 ∨ current_rate s v = s.r2 ∨
      current_rate s v = s.r1 ∨ current_rate s v = 0) ∧
    total_rebate s v price = v * price * current_rate s v :=
  ⟨current_rate_cases s v, rfl⟩

/-- C9.  Modelled from the spec (§4.5): on the comparator scenario with
schedule (100, 0.02), (120, 0.03), benchmark 100 and growth rate 0.15, the
difference (growth minus tiered) is +3 at volume 150 (tiered 4.5, growth
7.5), -1.35 at volume 105 (tiered 2.1, growth 0.75), and the exact crossover
volume — the volume at which the two payouts agree and beyond which the
growth deal dominates everywhere — is 125, uniquely. -/
theorem c9_comparator_crossover :
    tieredPayout2 100 (1/50) 120 (3/100) 150 = 9/2 ∧
    growthPayoutCmp 100 (3/20) 150 = 15/2 ∧
    diffC 150 = 3 ∧
    tieredPayout2 100 (1/50) 120 (3/100) 105 = 21/10 ∧
    growthPayoutCmp 100 (3/20) 105 = 3/4 ∧
    diffC 105 = -27/20 ∧
    diffC 125 = 0 ∧
    (∀ w, 125 < w → 0 < diffC w) ∧
    (∀ u, diffC u = 0 → (∀ w, u < w → 0 < diffC w) → u = 125) := by
  refine ⟨?_, ?_, ?_, ?_, ?_, ?_, diffC_at_125, diffC_pos, ?_⟩
  · norm_num [tieredPayout2, resolveRate2]
  · norm_num [growthPayoutCmp]
  · norm_num [diffC, differenceCmp, growthPayoutCmp, tieredPayout2, resolveRate2]
  · norm_num [tieredPayout2, resolveRate2]
  · norm_num [growthPayoutCmp]
  · norm_num [diffC, differenceCmp, growthPayoutCmp, tieredPayout2, resolveRate2]
  · intro u h0 hpos
    rcases lt_trichotomy u 125 with h | h | h
    · have hc := hpos 125 h
      rw [diffC_at_125] at hc
      exact absurd hc (lt_irrefl 0)
    · exact h
    · have hc := diffC_pos u h
      rw [h0] at hc
      exact absurd hc (lt_irrefl 0)

/-- C10.  Whenever the volume exceeds the benchmark, the per-unit value of
the growth calculator equals unitPrice * growthRate exactly, independent of
the volume. -/
theorem c10_per_ton_constant (b p r v : ℚ) (h : b < v) :
    per_ton_value b p r v = some (p * r) := by
  have hgv : growth_vol b v = v - b := max_eq_right (by linarith)
  have hpos : 0 < growth_vol b v := by rw [hgv]; linarith
  unfold per_ton_value
  rw [if_pos hpos]
  unfold growth_payout
  rw [hgv]
  have hne : v - b ≠ 0 := ne_of_gt (by linarith)
  congr 1
  field_simp
  ring

/-- C10 (witness).  At benchmark 100, unit price 2, growth rate 3 and
volume 101, the per-unit value is 6 = 2 * 3. -/
theorem c10_per_ton_constant_witness :
    per_ton_value 100 2 3 101 = some 6 := by
  have h := c10_per_ton_constant 100 2 3 101 (by norm_num)
  norm_num at h
  exact h

end Rebate
